import Mathlib

/-!
Shallow embedding of `src/xcode_cloud_automation.py` (class `XcodeCloudAutomation`):
the JWT credential signer and cache (`_generate_jwt_token`), the request
dispatcher (`_make_request`), and the resource operations built on top of them.

Modelling conventions:
* Time is a `Nat` of seconds; each call receives the current time `now`
  (the Python code reads `time.time()` / `datetime.now()` during the call).
* The network is a pure oracle `HttpWorld : HttpRequest → HttpResponse`
  mapping the request actually issued to the server's (final) response.
  `HttpResponse.body` is the parsed-JSON view of the response payload.
* `requests.Response.raise_for_status()` raises exactly when
  `400 ≤ status < 600`; this is embedded literally.
* `jwt.encode` is modelled structurally: a `Jwt` value packages the payload,
  key material, algorithm name and header map that the Python call passes in.
* Each operation returns, besides its result and the updated client state,
  the list of HTTP requests it issued (ghost trace) and `generateJwtToken`
  additionally reports whether the signer ran (ghost flag); these record
  observable effects of the source and change nothing else.
-/

namespace Cheffy

/-- JSON values, as needed for the client's request and response bodies. -/
inductive Json : Type where
  | null : Json
  | bool : Bool → Json
  | num : Int → Json
  | str : String → Json
  | arr : List Json → Json
  | obj : List (String × Json) → Json

/-- Python `dict.get(key, default)` on a parsed JSON object. -/
def Json.getD (j : Json) (k : String) (d : Json) : Json :=
  match j with
  | .obj fields =>
    match fields.lookup k with
    | some v => v
    | none => d
  | _ => d

/-- A JSON object that has no binding for key `k`. -/
def Json.lacksKey (j : Json) (k : String) : Prop :=
  ∃ fields, j = .obj fields ∧ fields.lookup k = none

/-- Python truthiness of an optional string argument (`if branch:` etc.):
`None` and the empty string are falsy. -/
def truthy : Option String → Bool
  | none => false
  | some s => s ≠ ""

/-- HTTP methods the embedded dispatcher can actually send. -/
inductive Method : Type where
  | GET
  | POST
  | DELETE
deriving Repr

/-- A signed token, modelled structurally as the data `jwt.encode` receives:
payload claims, PEM key text, algorithm name, and extra headers. -/
structure Jwt : Type where
  payload : Json
  key : String
  algorithm : String
  headers : Json

/-- One HTTP request as issued by the client: full URL, method, the bearer
credential attached in the `Authorization` header, whether a
`Content-Type: application/json` header is attached, and the JSON body. -/
structure HttpRequest : Type where
  url : String
  method : Method
  authToken : Jwt
  contentTypeJson : Bool
  body : Option Json

/-- An HTTP response: final status code and the parsed-JSON view of the body. -/
structure HttpResponse : Type where
  status : Nat
  body : Json

/-- The network as a pure oracle: the server's final answer to each request. -/
def HttpWorld : Type := HttpRequest → HttpResponse

/-- Raw (non-JSON) network oracle used by the streaming download:
status code and raw body bytes. -/
def RawWorld : Type := HttpRequest → Nat × List Nat

/-- Errors `_make_request` can raise:
`ValueError(f"Unsupported method: {method}")` and the
`requests.HTTPError` from `raise_for_status`, which carries the response's
status code and body. -/
inductive ReqError : Type where
  | unsupportedMethod (method : String)
  | apiError (statusCode : Nat) (body : Json)
  | rawApiError (statusCode : Nat) (rawBody : List Nat)

/-- Constructor-supplied configuration (`__init__`). -/
structure Config : Type where
  issuerId : String
  keyId : String
  privateKeyPath : String
  appId : String
deriving Repr

/-- `self.base_url`. -/
def baseUrl : String := "https://api.appstoreconnect.apple.com/v1"

/-- Mutable instance state: `self.token` and `self.token_expiry`.
`token_expiry` is an absolute time in seconds. -/
structure ClientState : Type where
  token : Option Jwt
  tokenExpiry : Option Nat

/-- State right after `__init__`: `self.token = None`, `self.token_expiry = None`. -/
def ClientState.init : ClientState := ⟨none, none⟩

/-- The claim set and headers passed to `jwt.encode` in `_generate_jwt_token`:
`iss`, `iat = now`, `exp = now + 1200`, `aud`, algorithm `ES256`,
headers `kid` and `typ`. `privateKey` is the text read from the key file. -/
def signToken (cfg : Config) (privateKey : String) (now : Nat) : Jwt :=
  { payload := .obj
      [ ("iss", .str cfg.issuerId)
      , ("iat", .num (now : Int))
      , ("exp", .num ((now : Int) + 1200))
      , ("aud", .str "appstoreconnect-v1") ]
  , key := privateKey
  , algorithm := "ES256"
  , headers := .obj
      [ ("kid", .str cfg.keyId)
      , ("typ", .str "JWT") ] }

/-- The `exp` claim of a token, read back out of its payload. -/
def Jwt.expClaim (t : Jwt) : Int :=
  match t.payload.getD "exp" .null with
  | .num n => n
  | _ => 0

/-- `_generate_jwt_token`: return the cached token if present and unexpired
(`datetime.now() < self.token_expiry`), else sign a fresh one and cache it
with expiry `now + 19 minutes` (1140 s, i.e. one minute before the token's
own 20-minute expiry). The returned `Bool` is a ghost flag: `true` iff the
signer actually ran. A real encoded JWT string is never empty, so Python's
`if self.token` truthiness is presence of the cached value. -/
def generateJwtToken (cfg : Config) (privateKey : String) (now : Nat)
    (s : ClientState) : Jwt × ClientState × Bool :=
  match s.token, s.tokenExpiry with
  | some t, some e =>
    if now < e then
      (t, s, false)
    else
      let t : Jwt := signToken cfg privateKey now
      (t, ⟨some t, some (now + 1140)⟩, true)
  | _, _ =>
    let t : Jwt := signToken cfg privateKey now
    (t, ⟨some t, some (now + 1140)⟩, true)

/-- State invariant relating the cached token to its stored refresh deadline:
the deadline is one minute before the token's `exp` claim. Holds after
`__init__` (vacuously) and is preserved by every operation. -/
def ClientState.Inv (s : ClientState) : Prop :=
  ∀ t e, s.token = some t → s.tokenExpiry = some e → t.expClaim = (e : Int) + 60

/-- Result of one client call: its outcome, the updated instance state, and
the (ghost) list of HTTP requests that actually went to the network. -/
structure CallResult (α : Type) : Type where
  result : α
  state : ClientState
  requests : List HttpRequest

/-- `_make_request(endpoint, method='GET', data=None)`: obtain a token, build
the URL and the `Authorization` plus `Content-Type: application/json`
headers, dispatch on the method string (`GET`/`POST`/`DELETE`; anything else
raises `ValueError` before touching the network; `DELETE` sends no body,
mirroring `requests.delete(url, headers=headers)`), run `raise_for_status`,
and return the parsed JSON body. -/
def makeRequest (cfg : Config) (pk : String) (now : Nat) (world : HttpWorld)
    (s : ClientState) (endpoint : String) (method : String := "GET")
    (data : Option Json := none) : CallResult (Except ReqError Json) :=
  let g := generateJwtToken cfg pk now s
  let tok := g.1
  let s' := g.2.1
  let url := baseUrl ++ endpoint
  let run : Method → Option Json → CallResult (Except ReqError Json) := fun m b =>
    let req : HttpRequest := ⟨url, m, tok, true, b⟩
    let resp := world req
    if 400 ≤ resp.status ∧ resp.status < 600 then
      ⟨.error (.apiError resp.status resp.body), s', [req]⟩
    else
      ⟨.ok resp.body, s', [req]⟩
  if method = "GET" then run .GET none
  else if method = "POST" then run .POST data
  else if method = "DELETE" then run .DELETE none
  else ⟨.error (.unsupportedMethod method), s', []⟩

/-- `list_workflows`: GET the app's workflow collection, extract `data`
(default `[]`). -/
def listWorkflows (cfg : Config) (pk : String) (now : Nat) (world : HttpWorld)
    (s : ClientState) : CallResult (Except ReqError Json) :=
  let endpoint := "/apps/" ++ cfg.appId ++ "/ciWorkflows"
  let r := makeRequest cfg pk now world s endpoint
  ⟨r.result.map (fun j => j.getD "data" (.arr [])), r.state, r.requests⟩

/-- `get_workflow`: GET a single workflow, extract `data` (default `{}`). -/
def getWorkflow (cfg : Config) (pk : String) (now : Nat) (world : HttpWorld)
    (s : ClientState) (workflowId : String) : CallResult (Except ReqError Json) :=
  let endpoint := "/ciWorkflows/" ++ workflowId
  let r := makeRequest cfg pk now world s endpoint
  ⟨r.result.map (fun j => j.getD "data" (.obj [])), r.state, r.requests⟩

/-- `list_builds(workflow_id=None, limit=20)`: choose the workflow-scoped or
app-scoped endpoint by Python truthiness of `workflow_id`, append
`?limit={limit}`, GET, extract `data` (default `[]`). -/
def listBuilds (cfg : Config) (pk : String) (now : Nat) (world : HttpWorld)
    (s : ClientState) (workflowId : Option String := none) (limit : Nat := 20) :
    CallResult (Except ReqError Json) :=
  let endpointBase :=
    if truthy workflowId then "/ciWorkflows/" ++ workflowId.getD "" ++ "/builds"
    else "/apps/" ++ cfg.appId ++ "/ciBuildRuns"
  let endpoint := endpointBase ++ "?limit=" ++ toString limit
  let r := makeRequest cfg pk now world s endpoint
  ⟨r.result.map (fun j => j.getD "data" (.arr [])), r.state, r.requests⟩

/-- `get_build`: GET a single build run, extract `data` (default `{}`). -/
def getBuild (cfg : Config) (pk : String) (now : Nat) (world : HttpWorld)
    (s : ClientState) (buildId : String) : CallResult (Except ReqError Json) :=
  let endpoint := "/ciBuildRuns/" ++ buildId
  let r := makeRequest cfg pk now world s endpoint
  ⟨r.result.map (fun j => j.getD "data" (.obj [])), r.state, r.requests⟩

/-- The `attributes` object built by `trigger_build`'s `if`/`elif` chain:
the first truthy of branch, tag, commit, or empty when none is truthy. -/
def refAttributes (branch tag commit : Option String) : List (String × Json) :=
  if truthy branch then [("branch", .str (branch.getD ""))]
  else if truthy tag then [("tag", .str (tag.getD ""))]
  else if truthy commit then [("commit", .str (commit.getD ""))]
  else []

/-- The full request body `trigger_build` constructs. -/
def triggerBuildBody (branch tag commit : Option String) : Json :=
  .obj [("data", .obj
    [ ("type", .str "ciBuildRuns")
    , ("attributes", .obj (refAttributes branch tag commit)) ])]

/-- `trigger_build(workflow_id, branch=None, tag=None, commit=None)`:
POST the constructed body to the workflow's builds endpoint, extract `data`
(default `{}`). -/
def triggerBuild (cfg : Config) (pk : String) (now : Nat) (world : HttpWorld)
    (s : ClientState) (workflowId : String) (branch : Option String := none)
    (tag : Option String := none) (commit : Option String := none) :
    CallResult (Except ReqError Json) :=
  let endpoint := "/ciWorkflows/" ++ workflowId ++ "/builds"
  let r := makeRequest cfg pk now world s endpoint "POST"
    (some (triggerBuildBody branch tag commit))
  ⟨r.result.map (fun j => j.getD "data" (.obj [])), r.state, r.requests⟩

/-- The request body `cancel_build` constructs: marks the build canceled. -/
def cancelBuildBody (buildId : String) : Json :=
  .obj [("data", .obj
    [ ("type", .str "ciBuildRuns")
    , ("id", .str buildId)
    , ("attributes", .obj [("canceled", .bool true)]) ])]

/-- `cancel_build(build_id)`: dispatch the cancellation body to the build's
resource endpoint with method string `"PATCH"`, extract `data` (default `{}`). -/
def cancelBuild (cfg : Config) (pk : String) (now : Nat) (world : HttpWorld)
    (s : ClientState) (buildId : String) : CallResult (Except ReqError Json) :=
  let endpoint := "/ciBuildRuns/" ++ buildId
  let r := makeRequest cfg pk now world s endpoint "PATCH"
    (some (cancelBuildBody buildId))
  ⟨r.result.map (fun j => j.getD "data" (.obj [])), r.state, r.requests⟩

/-- `retry_build(build_id)`: POST (no body) to the build's retry sub-resource,
extract `data` (default `{}`). -/
def retryBuild (cfg : Config) (pk : String) (now : Nat) (world : HttpWorld)
    (s : ClientState) (buildId : String) : CallResult (Except ReqError Json) :=
  let endpoint := "/ciBuildRuns/" ++ buildId ++ "/retry"
  let r := makeRequest cfg pk now world s endpoint "POST"
  ⟨r.result.map (fun j => j.getD "data" (.obj [])), r.state, r.requests⟩

/-- `get_build_artifacts(build_id)`: GET the build's artifact collection,
extract `data` (default `[]`). -/
def getBuildArtifacts (cfg : Config) (pk : String) (now : Nat)
    (world : HttpWorld) (s : ClientState) (buildId : String) :
    CallResult (Except ReqError Json) :=
  let endpoint := "/ciBuildRuns/" ++ buildId ++ "/artifacts"
  let r := makeRequest cfg pk now world s endpoint
  ⟨r.result.map (fun j => j.getD "data" (.arr [])), r.state, r.requests⟩

/-- The successive chunks `response.iter_content(chunk_size=n)` yields for a
fully buffered body: pieces of at most `n` bytes whose concatenation is the
body. -/
def chunksOf (n : Nat) (l : List α) : List (List α) :=
  match l, n with
  | [], _ => []
  | _ :: _, 0 => []
  | a :: as, m + 1 =>
    ((a :: as).take (m + 1)) :: chunksOf (m + 1) ((a :: as).drop (m + 1))
termination_by l.length
decreasing_by
  simp only [List.length_drop, List.length_cons]
  omega

/-- `download_artifact(artifact_id, output_path)`: GET the artifact download
endpoint with only the `Authorization` header, streaming; `raise_for_status`;
then write the body to the output file chunk by chunk (chunk size 8192).
The result is the list of chunks written, in order: the final file content is
their concatenation. -/
def downloadArtifact (cfg : Config) (pk : String) (now : Nat) (raw : RawWorld)
    (s : ClientState) (artifactId : String) :
    CallResult (Except ReqError (List (List Nat))) :=
  let g := generateJwtToken cfg pk now s
  let tok := g.1
  let s' := g.2.1
  let req : HttpRequest :=
    ⟨baseUrl ++ "/ciArtifacts/" ++ artifactId ++ "/download", .GET, tok, false, none⟩
  let resp := raw req
  if 400 ≤ resp.1 ∧ resp.1 < 600 then
    ⟨.error (.rawApiError resp.1 resp.2), s', [req]⟩
  else
    ⟨.ok (chunksOf 8192 resp.2), s', [req]⟩

/-! Concrete fixtures used by closed instances of the theorems below. -/

/-- A concrete configuration. -/
def cfg0 : Config := ⟨"iss-1", "key-1", "AuthKey_key-1.p8", "app-1"⟩

/-- The token signed at time 0 with `cfg0`. -/
def tok0 : Jwt := signToken cfg0 "PK" 0

/-- The client state right after a signing at time 0. -/
def s1 : ClientState := ⟨some tok0, some 1140⟩

/-- A server that always answers 200 with an empty JSON object. -/
def world200 : HttpWorld := fun _ => ⟨200, .obj []⟩

/-- A server that always answers 301 with a JSON body. -/
def world301 : HttpWorld := fun _ => ⟨301, .obj [("moved", .bool true)]⟩

/-- The 403 diagnostic body from the spec's scenario. -/
def body403 : Json := .obj [("errors", .arr [.obj [("title", .str "Forbidden")]])]

/-- A server that always answers 403 with `body403`. -/
def world403 : HttpWorld := fun _ => ⟨403, body403⟩

/-- A server that always answers 200 with a two-element `data` array. -/
def worldTwo : HttpWorld := fun _ => ⟨200, .obj [("data", .arr [.num 1, .num 2])]⟩

/-- A server that always answers 200 with a JSON object lacking `data`. -/
def worldNoData : HttpWorld := fun _ => ⟨200, .obj [("meta", .obj [])]⟩

/-- A raw-byte server answering 200 with a fixed small body. -/
def rawSmall : RawWorld := fun _ => (200, [10, 20, 30])

-- ### Theorems ###

theorem init_inv : ClientState.init.Inv := by
  intro t e ht _
  simp [ClientState.init] at ht

theorem signToken_expClaim (cfg : Config) (pk : String) (now : Nat) :
    (signToken cfg pk now).expClaim = (now : Int) + 1200 := by
  simp [signToken, Jwt.expClaim, Json.getD, List.lookup]

/-- The state coming out of `_generate_jwt_token` is either the input state
unchanged (cache hit, signer not run) or the freshly signed token with its
refresh deadline (signer run). -/
theorem generateJwtToken_state (cfg : Config) (pk : String) (now : Nat)
    (s : ClientState) :
    ((generateJwtToken cfg pk now s).2.1 = s ∧
      (generateJwtToken cfg pk now s).2.2 = false) ∨
    ((generateJwtToken cfg pk now s).2.1 =
        ⟨some (signToken cfg pk now), some (now + 1140)⟩ ∧
      (generateJwtToken cfg pk now s).2.2 = true) := by
  rcases hst : s.token with _ | t
  · right
    constructor <;> simp [generateJwtToken, hst]
  · rcases hse : s.tokenExpiry with _ | e
    · right
      constructor <;> simp [generateJwtToken, hst, hse]
    · by_cases hlt : now < e
      · left
        constructor <;> simp [generateJwtToken, hst, hse, hlt]
      · right
        constructor <;> simp [generateJwtToken, hst, hse, hlt]

/-- The state holding a freshly signed token satisfies the invariant. -/
theorem fresh_state_inv (cfg : Config) (pk : String) (now : Nat) :
    (ClientState.mk (some (signToken cfg pk now)) (some (now + 1140))).Inv := by
  intro t e ht he
  simp only [Option.some.injEq] at ht he
  rw [← ht, signToken_expClaim, ← he]
  push_cast
  ring

theorem generateJwtToken_inv (cfg : Config) (pk : String) (now : Nat)
    (s : ClientState) (h : s.Inv) :
    (generateJwtToken cfg pk now s).2.1.Inv := by
  rcases generateJwtToken_state cfg pk now s with ⟨hs, _⟩ | ⟨hs, _⟩
  · rw [hs]; exact h
  · rw [hs]; exact fresh_state_inv cfg pk now

/-- Cache hit: a present, unexpired token is returned unchanged and the
state is untouched. -/
theorem generateJwtToken_hit (cfg : Config) (pk : String) (now : Nat)
    (s : ClientState) (t : Jwt) (e : Nat) (ht : s.token = some t)
    (he : s.tokenExpiry = some e) (hlt : now < e) :
    generateJwtToken cfg pk now s = (t, s, false) := by
  simp [generateJwtToken, ht, he, hlt]

/-- Cache miss: when no cached token qualifies, a fresh token is signed,
stored with deadline `now + 1140`, and returned. -/
theorem generateJwtToken_miss (cfg : Config) (pk : String) (now : Nat)
    (s : ClientState)
    (h : ∀ t e, s.token = some t → s.tokenExpiry = some e → e ≤ now) :
    generateJwtToken cfg pk now s =
      (signToken cfg pk now,
        ⟨some (signToken cfg pk now), some (now + 1140)⟩, true) := by
  rcases hst : s.token with _ | t
  · simp [generateJwtToken, hst]
  · rcases hse : s.tokenExpiry with _ | e
    · simp [generateJwtToken, hst, hse]
    · have : e ≤ now := h t e hst hse
      have hlt : ¬ now < e := by omega
      simp [generateJwtToken, hst, hse, hlt]

/-- Under the state invariant, the token handed out by `_generate_jwt_token`
has its `exp` claim strictly in the future. -/
theorem generateJwtToken_token_fresh (cfg : Config) (pk : String) (now : Nat)
    (s : ClientState) (hinv : s.Inv) :
    (now : Int) < (generateJwtToken cfg pk now s).1.expClaim := by
  rcases hst : s.token with _ | t
  · rw [generateJwtToken_miss cfg pk now s (by intro t e ht _; rw [hst] at ht; cases ht)]
    rw [signToken_expClaim]
    omega
  · rcases hse : s.tokenExpiry with _ | e
    · rw [generateJwtToken_miss cfg pk now s
        (by intro t' e' _ he'; rw [hse] at he'; cases he')]
      rw [signToken_expClaim]
      omega
    · by_cases hlt : now < e
      · rw [generateJwtToken_hit cfg pk now s t e hst hse hlt]
        have := hinv t e hst hse
        simp only
        omega
      · rw [generateJwtToken_miss cfg pk now s
          (by intro t' e' ht' he'
              rw [hst] at ht'
              rw [hse] at he'
              cases ht'
              cases he'
              omega)]
        rw [signToken_expClaim]
        omega

/-- Canonical unfolding of `_make_request` for the `GET` method string
(the `data` argument is ignored, as in the source). -/
theorem makeRequest_get (cfg : Config) (pk : String) (now : Nat)
    (world : HttpWorld) (s : ClientState) (endpoint : String)
    (data : Option Json) :
    makeRequest cfg pk now world s endpoint "GET" data =
      (if 400 ≤ (world ⟨baseUrl ++ endpoint, .GET,
            (generateJwtToken cfg pk now s).1, true, none⟩).status ∧
          (world ⟨baseUrl ++ endpoint, .GET,
            (generateJwtToken cfg pk now s).1, true, none⟩).status < 600 then
        ⟨.error (.apiError
            (world ⟨baseUrl ++ endpoint, .GET,
              (generateJwtToken cfg pk now s).1, true, none⟩).status
            (world ⟨baseUrl ++ endpoint, .GET,
              (generateJwtToken cfg pk now s).1, true, none⟩).body),
          (generateJwtToken cfg pk now s).2.1,
          [⟨baseUrl ++ endpoint, .GET, (generateJwtToken cfg pk now s).1,
            true, none⟩]⟩
      else
        ⟨.ok (world ⟨baseUrl ++ endpoint, .GET,
            (generateJwtToken cfg pk now s).1, true, none⟩).body,
          (generateJwtToken cfg pk now s).2.1,
          [⟨baseUrl ++ endpoint, .GET, (generateJwtToken cfg pk now s).1,
            true, none⟩]⟩) := by
  rfl

/-- Canonical unfolding of `_make_request` for the `POST` method string. -/
theorem makeRequest_post (cfg : Config) (pk : String) (now : Nat)
    (world : HttpWorld) (s : ClientState) (endpoint : String)
    (data : Option Json) :
    makeRequest cfg pk now world s endpoint "POST" data =
      (if 400 ≤ (world ⟨baseUrl ++ endpoint, .POST,
            (generateJwtToken cfg pk now s).1, true, data⟩).status ∧
          (world ⟨baseUrl ++ endpoint, .POST,
            (generateJwtToken cfg pk now s).1, true, data⟩).status < 600 then
        ⟨.error (.apiError
            (world ⟨baseUrl ++ endpoint, .POST,
              (generateJwtToken cfg pk now s).1, true, data⟩).status
            (world ⟨baseUrl ++ endpoint, .POST,
              (generateJwtToken cfg pk now s).1, true, data⟩).body),
          (generateJwtToken cfg pk now s).2.1,
          [⟨baseUrl ++ endpoint, .POST, (generateJwtToken cfg pk now s).1,
            true, data⟩]⟩
      else
        ⟨.ok (world ⟨baseUrl ++ endpoint, .POST,
            (generateJwtToken cfg pk now s).1, true, data⟩).body,
          (generateJwtToken cfg pk now s).2.1,
          [⟨baseUrl ++ endpoint, .POST, (generateJwtToken cfg pk now s).1,
            true, data⟩]⟩) := by
  rfl

/-- Canonical unfolding of `_make_request` for the `DELETE` method string
(no body is sent, mirroring `requests.delete(url, headers=headers)`). -/
theorem makeRequest_delete (cfg : Config) (pk : String) (now : Nat)
    (world : HttpWorld) (s : ClientState) (endpoint : String)
    (data : Option Json) :
    makeRequest cfg pk now world s endpoint "DELETE" data =
      (if 400 ≤ (world ⟨baseUrl ++ endpoint, .DELETE,
            (generateJwtToken cfg pk now s).1, true, none⟩).status ∧
          (world ⟨baseUrl ++ endpoint, .DELETE,
            (generateJwtToken cfg pk now s).1, true, none⟩).status < 600 then
        ⟨.error (.apiError
            (world ⟨baseUrl ++ endpoint, .DELETE,
              (generateJwtToken cfg pk now s).1, true, none⟩).status
            (world ⟨baseUrl ++ endpoint, .DELETE,
              (generateJwtToken cfg pk now s).1, true, none⟩).body),
          (generateJwtToken cfg pk now s).2.1,
          [⟨baseUrl ++ endpoint, .DELETE, (generateJwtToken cfg pk now s).1,
            true, none⟩]⟩
      else
        ⟨.ok (world ⟨baseUrl ++ endpoint, .DELETE,
            (generateJwtToken cfg pk now s).1, true, none⟩).body,
          (generateJwtToken cfg pk now s).2.1,
          [⟨baseUrl ++ endpoint, .DELETE, (generateJwtToken cfg pk now s).1,
            true, none⟩]⟩) := by
  rfl

/-- For any method string other than `GET`, `POST`, `DELETE`, the dispatcher
raises `ValueError` and no request reaches the network. -/
theorem makeRequest_unsupported (cfg : Config) (pk : String) (now : Nat)
    (world : HttpWorld) (s : ClientState) (endpoint : String) (method : String)
    (data : Option Json) (h1 : method ≠ "GET") (h2 : method ≠ "POST")
    (h3 : method ≠ "DELETE") :
    makeRequest cfg pk now world s endpoint method data =
      ⟨.error (.unsupportedMethod method),
        (generateJwtToken cfg pk now s).2.1, []⟩ := by
  simp [makeRequest, h1, h2, h3]

/-- `dict.get` returns the default when the key is absent. -/
theorem Json.getD_of_lacksKey (j : Json) (k : String) (d : Json)
    (h : j.lacksKey k) : j.getD k d = d := by
  obtain ⟨fields, hj, hk⟩ := h
  rw [hj]
  simp [Json.getD, hk]

/-- The chunks of a positive chunk size concatenate back to the input. -/
theorem chunksOf_flatten {α : Type} (m : Nat) (l : List α) :
    (chunksOf (m + 1) l).flatten = l := by
  suffices h : ∀ k (l : List α), l.length ≤ k →
      (chunksOf (m + 1) l).flatten = l from h l.length l le_rfl
  intro k
  induction k with
  | zero =>
    intro l hl
    have : l = [] := List.length_eq_zero.mp (Nat.le_zero.mp hl)
    subst this
    simp [chunksOf]
  | succ k ih =>
    intro l hl
    match l with
    | [] => simp [chunksOf]
    | a :: as =>
      rw [chunksOf, List.flatten_cons]
      rw [ih ((a :: as).drop (m + 1)) (by
        simp only [List.length_cons] at hl
        simp only [List.length_drop, List.length_cons]
        omega)]
      exact List.take_append_drop _ _

/-- Every chunk has at most the chunk size many elements. -/
theorem chunksOf_length_le {α : Type} (n : Nat) (l : List α) :
    ∀ c ∈ chunksOf n l, c.length ≤ n := by
  suffices h : ∀ k (l : List α), l.length ≤ k →
      ∀ c ∈ chunksOf n l, c.length ≤ n from h l.length l le_rfl
  intro k
  induction k with
  | zero =>
    intro l hl
    have : l = [] := List.length_eq_zero.mp (Nat.le_zero.mp hl)
    subst this
    simp [chunksOf]
  | succ k ih =>
    intro l hl
    match l, n with
    | [], _ => simp [chunksOf]
    | _ :: _, 0 => simp [chunksOf]
    | a :: as, m + 1 =>
      rw [chunksOf]
      intro c hc
      rcases List.mem_cons.mp hc with hc | hc
      · rw [hc]
        simp only [List.length_take]
        omega
      · exact ih ((a :: as).drop (m + 1)) (by
          simp only [List.length_cons] at hl
          simp only [List.length_drop, List.length_cons]
          omega) c hc

/-- Every request the dispatcher issues carries the token obtained from the
cache at the start of the call. -/
theorem makeRequest_requests_token (cfg : Config) (pk : String) (now : Nat)
    (world : HttpWorld) (s : ClientState) (endpoint : String) (method : String)
    (data : Option Json) :
    ∀ req ∈ (makeRequest cfg pk now world s endpoint method data).requests,
      req.authToken = (generateJwtToken cfg pk now s).1 := by
  intro req hreq
  by_cases h1 : method = "GET"
  · subst h1
    rw [makeRequest_get] at hreq
    split at hreq <;> simp only [List.mem_singleton] at hreq <;> subst hreq <;> rfl
  · by_cases h2 : method = "POST"
    · subst h2
      rw [makeRequest_post] at hreq
      split at hreq <;> simp only [List.mem_singleton] at hreq <;>
        subst hreq <;> rfl
    · by_cases h3 : method = "DELETE"
      · subst h3
        rw [makeRequest_delete] at hreq
        split at hreq <;> simp only [List.mem_singleton] at hreq <;>
          subst hreq <;> rfl
      · rw [makeRequest_unsupported cfg pk now world s endpoint method data
          h1 h2 h3] at hreq
        simp at hreq

/-- Canonical unfolding of `download_artifact`. -/
theorem downloadArtifact_eq (cfg : Config) (pk : String) (now : Nat)
    (raw : RawWorld) (s : ClientState) (artifactId : String) :
    downloadArtifact cfg pk now raw s artifactId =
      (if 400 ≤ (raw ⟨baseUrl ++ "/ciArtifacts/" ++ artifactId ++ "/download",
            .GET, (generateJwtToken cfg pk now s).1, false, none⟩).1 ∧
          (raw ⟨baseUrl ++ "/ciArtifacts/" ++ artifactId ++ "/download",
            .GET, (generateJwtToken cfg pk now s).1, false, none⟩).1 < 600 then
        ⟨.error (.rawApiError
            (raw ⟨baseUrl ++ "/ciArtifacts/" ++ artifactId ++ "/download",
              .GET, (generateJwtToken cfg pk now s).1, false, none⟩).1
            (raw ⟨baseUrl ++ "/ciArtifacts/" ++ artifactId ++ "/download",
              .GET, (generateJwtToken cfg pk now s).1, false, none⟩).2),
          (generateJwtToken cfg pk now s).2.1,
          [⟨baseUrl ++ "/ciArtifacts/" ++ artifactId ++ "/download", .GET,
            (generateJwtToken cfg pk now s).1, false, none⟩]⟩
      else
        ⟨.ok (chunksOf 8192
            (raw ⟨baseUrl ++ "/ciArtifacts/" ++ artifactId ++ "/download",
              .GET, (generateJwtToken cfg pk now s).1, false, none⟩).2),
          (generateJwtToken cfg pk now s).2.1,
          [⟨baseUrl ++ "/ciArtifacts/" ++ artifactId ++ "/download", .GET,
            (generateJwtToken cfg pk now s).1, false, none⟩]⟩) := by
  rfl

/-- Mapping over a successful `Except` applies the function to the value. -/
theorem except_map_ok {ε α β : Type} (f : α → β) (x : α) :
    Except.map f (.ok x : Except ε α) = .ok (f x) := rfl

/-- Whenever the ghost flag reports that the signer ran, the token handed
out is the freshly signed one. -/
theorem generateJwtToken_run_token (cfg : Config) (pk : String) (now : Nat)
    (s : ClientState) (h : (generateJwtToken cfg pk now s).2.2 = true) :
    (generateJwtToken cfg pk now s).1 = signToken cfg pk now := by
  rcases hst : s.token with _ | t
  · rw [generateJwtToken_miss cfg pk now s
      (by intro t e ht _; rw [hst] at ht; cases ht)]
  · rcases hse : s.tokenExpiry with _ | e
    · rw [generateJwtToken_miss cfg pk now s
        (by intro t' e' _ he'; rw [hse] at he'; cases he')]
    · by_cases hlt : now < e
      · rw [generateJwtToken_hit cfg pk now s t e hst hse hlt] at h
        simp at h
      · rw [generateJwtToken_miss cfg pk now s (by
          intro t' e' ht' he'
          rw [hst] at ht'
          rw [hse] at he'
          cases ht'
          cases he'
          omega)]

/-- The single POST request `trigger_build` issues, with its constructed
body. -/
theorem triggerBuild_requests (cfg : Config) (pk : String) (now : Nat)
    (world : HttpWorld) (s : ClientState) (wf : String)
    (branch tag commit : Option String) :
    (triggerBuild cfg pk now world s wf branch tag commit).requests =
      [⟨baseUrl ++ ("/ciWorkflows/" ++ wf ++ "/builds"), .POST,
        (generateJwtToken cfg pk now s).1, true,
        some (triggerBuildBody branch tag commit)⟩] := by
  simp only [triggerBuild]
  rw [makeRequest_post]
  split <;> rfl

-- ### Claim theorems ###

/-- C1: the claim fails on the code: `cancel_build` does construct the PATCH
body marking the build canceled, but `_make_request` supports only the
method strings `GET`, `POST`, `DELETE`; dispatching `"PATCH"` raises
`ValueError("Unsupported method: PATCH")`, so for every build id, server
and client state the call fails inside the dispatcher before any HTTP
request is issued. -/
theorem cancelBuild_always_unsupported (cfg : Config) (pk : String)
    (now : Nat) (world : HttpWorld) (s : ClientState) (buildId : String) :
    (cancelBuild cfg pk now world s buildId).result
        = .error (.unsupportedMethod "PATCH") ∧
    (cancelBuild cfg pk now world s buildId).requests = [] :=
  ⟨rfl, rfl⟩

/-- C2 counterexample: a response with final status 301 (which is ≥ 300)
does not surface an `ApiError`; `raise_for_status` only raises for
4xx/5xx, so the dispatcher returns the parsed body instead. -/
theorem makeRequest_301_not_error :
    (makeRequest cfg0 "PK" 0 world301 ClientState.init "/x" "GET" none).result
        = .ok (.obj [("moved", .bool true)]) ∧
    (makeRequest cfg0 "PK" 0 world301 ClientState.init "/x" "GET" none).result
        ≠ .error (.apiError 301 (.obj [("moved", .bool true)])) := by
  refine ⟨rfl, ?_⟩
  intro h
  exact Except.noConfusion h

/-- C2 amended: for every supported method string, the dispatcher issues
exactly one HTTP request (no retry); if the final status lies in
`[400, 600)` the call fails with an `ApiError` carrying the original status
code and the response body verbatim; otherwise (in particular for 2xx) the
parsed JSON body is returned. -/
theorem makeRequest_error_contract (cfg : Config) (pk : String) (now : Nat)
    (world : HttpWorld) (s : ClientState) (endpoint : String) (method : String)
    (data : Option Json)
    (hm : method = "GET" ∨ method = "POST" ∨ method = "DELETE") :
    ∃ req,
      (makeRequest cfg pk now world s endpoint method data).requests
          = [req] ∧
      (400 ≤ (world req).status → (world req).status < 600 →
        (makeRequest cfg pk now world s endpoint method data).result
          = .error (.apiError (world req).status (world req).body)) ∧
      (¬ (400 ≤ (world req).status ∧ (world req).status < 600) →
        (makeRequest cfg pk now world s endpoint method data).result
          = .ok (world req).body) := by
  rcases hm with hm | hm | hm <;> subst hm
  · refine ⟨⟨baseUrl ++ endpoint, .GET, (generateJwtToken cfg pk now s).1,
      true, none⟩, ?_, ?_, ?_⟩
    · rw [makeRequest_get]
      split <;> rfl
    · intro h1 h2
      rw [makeRequest_get, if_pos ⟨h1, h2⟩]
    · intro h
      rw [makeRequest_get, if_neg h]
  · refine ⟨⟨baseUrl ++ endpoint, .POST, (generateJwtToken cfg pk now s).1,
      true, data⟩, ?_, ?_, ?_⟩
    · rw [makeRequest_post]
      split <;> rfl
    · intro h1 h2
      rw [makeRequest_post, if_pos ⟨h1, h2⟩]
    · intro h
      rw [makeRequest_post, if_neg h]
  · refine ⟨⟨baseUrl ++ endpoint, .DELETE, (generateJwtToken cfg pk now s).1,
      true, none⟩, ?_, ?_, ?_⟩
    · rw [makeRequest_delete]
      split <;> rfl
    · intro h1 h2
      rw [makeRequest_delete, if_pos ⟨h1, h2⟩]
    · intro h
      rw [makeRequest_delete, if_neg h]

/-- C2 witness, instantiating the amended contract at the spec's 403
scenario: `listWorkflows` against a server answering 403 with
`{"errors":[{"title":"Forbidden"}]}`. -/
theorem makeRequest_error_contract_witness :
    ∃ req,
      (makeRequest cfg0 "PK" 0 world403 ClientState.init
          "/apps/app-1/ciWorkflows" "GET" none).requests = [req] ∧
      (400 ≤ (world403 req).status → (world403 req).status < 600 →
        (makeRequest cfg0 "PK" 0 world403 ClientState.init
            "/apps/app-1/ciWorkflows" "GET" none).result
          = .error (.apiError (world403 req).status (world403 req).body)) ∧
      (¬ (400 ≤ (world403 req).status ∧ (world403 req).status < 600) →
        (makeRequest cfg0 "PK" 0 world403 ClientState.init
            "/apps/app-1/ciWorkflows" "GET" none).result
          = .ok (world403 req).body) :=
  makeRequest_error_contract cfg0 "PK" 0 world403 ClientState.init
    "/apps/app-1/ciWorkflows" "GET" none (Or.inl rfl)

/-- C3: while `now` is before the cached credential's expiry minus the 60 s
safety margin, the cached credential is returned unchanged and the signer is
not invoked; from that point on, the signer runs and its result is stored
with its refresh deadline and returned. -/
theorem tokenCache_reuse (cfg : Config) (pk : String) (now : Nat)
    (s : ClientState) (t : Jwt) (e : Nat) (ht : s.token = some t)
    (he : s.tokenExpiry = some e) (hinv : s.Inv) :
    (((now : Int) < t.expClaim - 60 →
        generateJwtToken cfg pk now s = (t, s, false)) ∧
      (t.expClaim - 60 ≤ (now : Int) →
        generateJwtToken cfg pk now s =
          (signToken cfg pk now,
            ⟨some (signToken cfg pk now), some (now + 1140)⟩, true))) := by
  have hexp := hinv t e ht he
  constructor
  · intro h
    exact generateJwtToken_hit cfg pk now s t e ht he (by omega)
  · intro h
    refine generateJwtToken_miss cfg pk now s ?_
    intro t' e' ht' he'
    rw [ht] at ht'
    rw [he] at he'
    cases ht'
    cases he'
    omega

/-- C3 witness, the spec's scenario: after signing at time 0 (1200 s
lifetime, 60 s margin), calls at 1000 s and 1100 s both return the identical
cached token without re-signing, and a call at 1150 s signs a new token. -/
theorem tokenCache_reuse_witness :
    generateJwtToken cfg0 "PK" 1000 s1 = (tok0, s1, false) ∧
    generateJwtToken cfg0 "PK" 1100 s1 = (tok0, s1, false) ∧
    generateJwtToken cfg0 "PK" 1150 s1 =
      (signToken cfg0 "PK" 1150,
        ⟨some (signToken cfg0 "PK" 1150), some (1150 + 1140)⟩, true) := by
  have hinv : s1.Inv := fresh_state_inv cfg0 "PK" 0
  have hexp : tok0.expClaim = (1200 : Int) := by
    have := signToken_expClaim cfg0 "PK" 0
    simpa [tok0] using this
  refine ⟨?_, ?_, ?_⟩
  · exact (tokenCache_reuse cfg0 "PK" 1000 s1 tok0 1140 rfl rfl hinv).1
      (by rw [hexp]; norm_num)
  · exact (tokenCache_reuse cfg0 "PK" 1100 s1 tok0 1140 rfl rfl hinv).1
      (by rw [hexp]; norm_num)
  · exact (tokenCache_reuse cfg0 "PK" 1150 s1 tok0 1140 rfl rfl hinv).2
      (by rw [hexp]; norm_num)

/-- C4: under the cache invariant, every HTTP request issued by the
dispatcher or by the streaming download carries a bearer credential whose
`exp` claim lies strictly in the future at attach time; and once
`expiry − 60 s` has passed, the credential actually used is freshly
signed at the current time. -/
theorem no_stale_token (cfg : Config) (pk : String) (now : Nat)
    (world : HttpWorld) (raw : RawWorld) (s : ClientState) (endpoint : String)
    (method : String) (data : Option Json) (artifactId : String)
    (hinv : s.Inv) :
    (∀ req ∈ (makeRequest cfg pk now world s endpoint method data).requests,
        (now : Int) < req.authToken.expClaim) ∧
    (∀ req ∈ (downloadArtifact cfg pk now raw s artifactId).requests,
        (now : Int) < req.authToken.expClaim) ∧
    (∀ t e, s.token = some t → s.tokenExpiry = some e →
        t.expClaim - 60 ≤ (now : Int) →
        (generateJwtToken cfg pk now s).1 = signToken cfg pk now) := by
  have htok := generateJwtToken_token_fresh cfg pk now s hinv
  refine ⟨?_, ?_, ?_⟩
  · intro req hreq
    rw [makeRequest_requests_token cfg pk now world s endpoint method data
      req hreq]
    exact htok
  · intro req hreq
    rw [downloadArtifact_eq] at hreq
    have : req.authToken = (generateJwtToken cfg pk now s).1 := by
      split at hreq <;> simp only [List.mem_singleton] at hreq <;>
        subst hreq <;> rfl
    rw [this]
    exact htok
  · intro t e ht he hpast
    have hexp := hinv t e ht he
    rw [generateJwtToken_miss cfg pk now s (by
      intro t' e' ht' he'
      rw [ht] at ht'
      rw [he] at he'
      cases ht'
      cases he'
      omega)]

/-- C4 witness: the no-stale-token property instantiated at a concrete
configuration, server, and the post-`__init__` state. -/
theorem no_stale_token_witness :
    (∀ req ∈ (makeRequest cfg0 "PK" 7 world200 ClientState.init
        "/x" "GET" none).requests, (7 : Int) < req.authToken.expClaim) ∧
    (∀ req ∈ (downloadArtifact cfg0 "PK" 7 rawSmall ClientState.init
        "a1").requests, (7 : Int) < req.authToken.expClaim) ∧
    (∀ t e, ClientState.init.token = some t →
        ClientState.init.tokenExpiry = some e →
        t.expClaim - 60 ≤ (7 : Int) →
        (generateJwtToken cfg0 "PK" 7 ClientState.init).1
          = signToken cfg0 "PK" 7) :=
  no_stale_token cfg0 "PK" 7 world200 rawSmall ClientState.init "/x" "GET"
    none "a1" init_inv

/-- C5: with exactly one of branch/tag/commit supplied non-empty, the POST
body's attributes object holds only the matching attribute with the given
value; with none of the three supplied, the attributes object is empty. -/
theorem triggerBuild_single_ref (cfg : Config) (pk : String) (now : Nat)
    (world : HttpWorld) (s : ClientState) (wf : String) :
    (∀ b : String, b ≠ "" → ∃ req,
      (triggerBuild cfg pk now world s wf (some b) none none).requests
          = [req] ∧
      req.method = .POST ∧
      req.body = some (.obj [("data", .obj
        [ ("type", .str "ciBuildRuns")
        , ("attributes", .obj [("branch", .str b)]) ])])) ∧
    (∀ t : String, t ≠ "" → ∃ req,
      (triggerBuild cfg pk now world s wf none (some t) none).requests
          = [req] ∧
      req.method = .POST ∧
      req.body = some (.obj [("data", .obj
        [ ("type", .str "ciBuildRuns")
        , ("attributes", .obj [("tag", .str t)]) ])])) ∧
    (∀ c : String, c ≠ "" → ∃ req,
      (triggerBuild cfg pk now world s wf none none (some c)).requests
          = [req] ∧
      req.method = .POST ∧
      req.body = some (.obj [("data", .obj
        [ ("type", .str "ciBuildRuns")
        , ("attributes", .obj [("commit", .str c)]) ])])) ∧
    (∃ req,
      (triggerBuild cfg pk now world s wf none none none).requests = [req] ∧
      req.method = .POST ∧
      req.body = some (.obj [("data", .obj
        [ ("type", .str "ciBuildRuns")
        , ("attributes", .obj []) ])])) := by
  refine ⟨?_, ?_, ?_, ?_⟩
  · intro b hb
    refine ⟨_, triggerBuild_requests cfg pk now world s wf (some b) none none,
      rfl, ?_⟩
    simp [triggerBuildBody, refAttributes, truthy, hb]
  · intro t ht
    refine ⟨_, triggerBuild_requests cfg pk now world s wf none (some t) none,
      rfl, ?_⟩
    simp [triggerBuildBody, refAttributes, truthy, ht]
  · intro c hc
    refine ⟨_, triggerBuild_requests cfg pk now world s wf none none (some c),
      rfl, ?_⟩
    simp [triggerBuildBody, refAttributes, truthy, hc]
  · refine ⟨_, triggerBuild_requests cfg pk now world s wf none none none,
      rfl, ?_⟩
    simp [triggerBuildBody, refAttributes, truthy]

/-- C5 witness: triggering with only `branch = "main"` puts exactly
`{"branch": "main"}` in the attributes of the issued POST. -/
theorem triggerBuild_single_ref_witness :
    ∃ req,
      (triggerBuild cfg0 "PK" 0 world200 ClientState.init "wf-42"
          (some "main") none none).requests = [req] ∧
      req.method = .POST ∧
      req.body = some (.obj [("data", .obj
        [ ("type", .str "ciBuildRuns")
        , ("attributes", .obj [("branch", .str "main")]) ])]) :=
  (triggerBuild_single_ref cfg0 "PK" 0 world200 ClientState.init "wf-42").1
    "main" (by decide)

/-- C6 counterexample: with `limit = 1`, a 200 response whose `data` array
has two entries makes `listBuilds` return both entries — the client sends
the limit as a query parameter but does not itself truncate the result. -/
theorem listBuilds_exceeds_limit :
    (listBuilds cfg0 "PK" 0 worldTwo ClientState.init (some "wf-42") 1).result
        = .ok (.arr [.num 1, .num 2]) ∧
    ¬ (∀ l, (listBuilds cfg0 "PK" 0 worldTwo ClientState.init (some "wf-42")
        1).result = .ok (.arr l) → l.length ≤ 1) := by
  refine ⟨rfl, ?_⟩
  intro h
  have := h [.num 1, .num 2] rfl
  simp at this

/-- C6 amended: `listBuilds` issues a single GET to the workflow-scoped
builds endpoint when a truthy workflow id is given and to the app's
build-run collection otherwise, with `?limit={limit}` appended; on a
non-error status it returns exactly the response's `data` array (default
`[]`) — hence at most `limit` entries whenever the server honours the limit
parameter. -/
theorem listBuilds_contract (cfg : Config) (pk : String) (now : Nat)
    (world : HttpWorld) (s : ClientState) (wfId : Option String)
    (limit : Nat) :
    ∃ req,
      (listBuilds cfg pk now world s wfId limit).requests = [req] ∧
      req.method = .GET ∧
      req.url = baseUrl ++
        ((if truthy wfId then "/ciWorkflows/" ++ wfId.getD "" ++ "/builds"
          else "/apps/" ++ cfg.appId ++ "/ciBuildRuns") ++ "?limit=" ++
          toString limit) ∧
      (¬ (400 ≤ (world req).status ∧ (world req).status < 600) →
        (listBuilds cfg pk now world s wfId limit).result
          = .ok ((world req).body.getD "data" (.arr []))) ∧
      (∀ l, ¬ (400 ≤ (world req).status ∧ (world req).status < 600) →
        (world req).body.getD "data" (.arr []) = .arr l → l.length ≤ limit →
        ∃ entries, (listBuilds cfg pk now world s wfId limit).result
            = .ok (.arr entries) ∧ entries.length ≤ limit) := by
  refine ⟨⟨baseUrl ++
    ((if truthy wfId then "/ciWorkflows/" ++ wfId.getD "" ++ "/builds"
      else "/apps/" ++ cfg.appId ++ "/ciBuildRuns") ++ "?limit=" ++
      toString limit), .GET, (generateJwtToken cfg pk now s).1, true, none⟩,
    ?_, rfl, rfl, ?_, ?_⟩
  · simp only [listBuilds]
    rw [makeRequest_get]
    split <;> split <;> rfl
  · intro h
    simp only [listBuilds]
    rw [makeRequest_get, if_neg h]
    rfl
  · intro l h harr hlen
    refine ⟨l, ?_, hlen⟩
    simp only [listBuilds]
    rw [makeRequest_get, if_neg h]
    dsimp only
    rw [except_map_ok, harr]

/-- C6 witness: the contract instantiated at `workflowId = "wf-42"`,
`limit = 5`, against a server whose `data` array has two (≤ 5) entries. -/
theorem listBuilds_contract_witness :
    ∃ req,
      (listBuilds cfg0 "PK" 0 worldTwo ClientState.init (some "wf-42")
          5).requests = [req] ∧
      req.method = .GET ∧
      req.url = baseUrl ++
        ((if truthy (some "wf-42") then
            "/ciWorkflows/" ++ (some "wf-42").getD "" ++ "/builds"
          else "/apps/" ++ cfg0.appId ++ "/ciBuildRuns") ++ "?limit=" ++
          toString 5) ∧
      (¬ (400 ≤ (worldTwo req).status ∧ (worldTwo req).status < 600) →
        (listBuilds cfg0 "PK" 0 worldTwo ClientState.init (some "wf-42")
            5).result = .ok ((worldTwo req).body.getD "data" (.arr []))) ∧
      (∀ l, ¬ (400 ≤ (worldTwo req).status ∧ (worldTwo req).status < 600) →
        (worldTwo req).body.getD "data" (.arr []) = .arr l → l.length ≤ 5 →
        ∃ entries, (listBuilds cfg0 "PK" 0 worldTwo ClientState.init
            (some "wf-42") 5).result = .ok (.arr entries) ∧
          entries.length ≤ 5) :=
  listBuilds_contract cfg0 "PK" 0 worldTwo ClientState.init (some "wf-42") 5

/-- C7: whenever the signer runs, the produced credential's claim set has
`iss` = the issuer id, `iat` = the current time, `exp` = the current time
plus 1200 s, `aud` = the audience tag; it is signed with the supplied
private key using the elliptic-curve algorithm ES256; and its header
metadata carries the key id and the fixed `JWT` type tag. -/
theorem signer_credential_shape (cfg : Config) (pk : String) (now : Nat)
    (s : ClientState)
    (hrun : (generateJwtToken cfg pk now s).2.2 = true) :
    (generateJwtToken cfg pk now s).1.payload.getD "iss" .null
        = .str cfg.issuerId ∧
    (generateJwtToken cfg pk now s).1.payload.getD "iat" .null
        = .num (now : Int) ∧
    (generateJwtToken cfg pk now s).1.payload.getD "exp" .null
        = .num ((now : Int) + 1200) ∧
    (generateJwtToken cfg pk now s).1.payload.getD "aud" .null
        = .str "appstoreconnect-v1" ∧
    (generateJwtToken cfg pk now s).1.key = pk ∧
    (generateJwtToken cfg pk now s).1.algorithm = "ES256" ∧
    (generateJwtToken cfg pk now s).1.headers.getD "kid" .null
        = .str cfg.keyId ∧
    (generateJwtToken cfg pk now s).1.headers.getD "typ" .null
        = .str "JWT" := by
  rw [generateJwtToken_run_token cfg pk now s hrun]
  exact ⟨rfl, rfl, rfl, rfl, rfl, rfl, rfl, rfl⟩

/-- C7 witness: the signer runs on the fresh post-`__init__` state at time 5
and the credential has the stated shape. -/
theorem signer_credential_shape_witness :
    (generateJwtToken cfg0 "PK" 5 ClientState.init).1.payload.getD "iss" .null
        = .str cfg0.issuerId ∧
    (generateJwtToken cfg0 "PK" 5 ClientState.init).1.payload.getD "iat" .null
        = .num (5 : Int) ∧
    (generateJwtToken cfg0 "PK" 5 ClientState.init).1.payload.getD "exp" .null
        = .num ((5 : Int) + 1200) ∧
    (generateJwtToken cfg0 "PK" 5 ClientState.init).1.payload.getD "aud" .null
        = .str "appstoreconnect-v1" ∧
    (generateJwtToken cfg0 "PK" 5 ClientState.init).1.key = "PK" ∧
    (generateJwtToken cfg0 "PK" 5 ClientState.init).1.algorithm = "ES256" ∧
    (generateJwtToken cfg0 "PK" 5 ClientState.init).1.headers.getD "kid" .null
        = .str cfg0.keyId ∧
    (generateJwtToken cfg0 "PK" 5 ClientState.init).1.headers.getD "typ" .null
        = .str "JWT" := by
  have h := signer_credential_shape cfg0 "PK" 5 ClientState.init rfl
  simpa using h

/-- C8: a successful `download_artifact` writes exactly the response body to
the destination: the chunks written, in order, concatenate byte-for-byte to
the body, and each written chunk holds at most 8192 bytes (bounded-size
streamed writes rather than one whole-payload write). -/
theorem downloadArtifact_stream (cfg : Config) (pk : String) (now : Nat)
    (raw : RawWorld) (s : ClientState) (artifactId : String) :
    ∃ req,
      (downloadArtifact cfg pk now raw s artifactId).requests = [req] ∧
      (¬ (400 ≤ (raw req).1 ∧ (raw req).1 < 600) →
        (downloadArtifact cfg pk now raw s artifactId).result
            = .ok (chunksOf 8192 (raw req).2) ∧
        (chunksOf 8192 (raw req).2).flatten = (raw req).2 ∧
        ∀ c ∈ chunksOf 8192 (raw req).2, c.length ≤ 8192) := by
  refine ⟨⟨baseUrl ++ "/ciArtifacts/" ++ artifactId ++ "/download", .GET,
    (generateJwtToken cfg pk now s).1, false, none⟩, ?_, ?_⟩
  · rw [downloadArtifact_eq]
    split <;> rfl
  · intro h
    refine ⟨?_, ?_, ?_⟩
    · rw [downloadArtifact_eq, if_neg h]
    · exact chunksOf_flatten 8191 _
    · exact chunksOf_length_le 8192 _

/-- C8 witness: the streaming contract instantiated at a concrete
three-byte body, where the written chunks concatenate to the body. -/
theorem downloadArtifact_stream_witness :
    ∃ req,
      (downloadArtifact cfg0 "PK" 0 rawSmall ClientState.init
          "a1").requests = [req] ∧
      (¬ (400 ≤ (rawSmall req).1 ∧ (rawSmall req).1 < 600) →
        (downloadArtifact cfg0 "PK" 0 rawSmall ClientState.init "a1").result
            = .ok (chunksOf 8192 (rawSmall req).2) ∧
        (chunksOf 8192 (rawSmall req).2).flatten = (rawSmall req).2 ∧
        ∀ c ∈ chunksOf 8192 (rawSmall req).2, c.length ≤ 8192) :=
  downloadArtifact_stream cfg0 "PK" 0 rawSmall ClientState.init "a1"

/-- C9 counterexample: `cancel_build` never reaches response parsing — even
against a server that would answer 200 with a body lacking `data`, it fails
with the unsupported-method error instead of returning an empty record. -/
theorem cancelBuild_no_empty_record :
    (cancelBuild cfg0 "PK" 0 worldNoData ClientState.init "b1").result
        = .error (.unsupportedMethod "PATCH") ∧
    (cancelBuild cfg0 "PK" 0 worldNoData ClientState.init "b1").result
        ≠ .ok (.obj []) := by
  refine ⟨rfl, ?_⟩
  intro h
  exact Except.noConfusion h

/-- C9 amended: for every 2xx response whose parsed body lacks the `data`
key, the collection operations return an empty sequence and the
single-resource operations `getWorkflow`, `getBuild`, `triggerBuild`,
`retryBuild` return an empty record; `cancelBuild` alone never gets that
far — it fails with the unsupported-method error before any response is
processed. -/
theorem missing_data_defaults (cfg : Config) (pk : String) (now : Nat)
    (world : HttpWorld) (s : ClientState) (wf : String) (bid : String)
    (hok : ∀ req, 200 ≤ (world req).status ∧ (world req).status < 300 ∧
      Json.lacksKey (world req).body "data") :
    (listWorkflows cfg pk now world s).result = .ok (.arr []) ∧
    (listBuilds cfg pk now world s (some wf) 20).result = .ok (.arr []) ∧
    (listBuilds cfg pk now world s none 20).result = .ok (.arr []) ∧
    (getBuildArtifacts cfg pk now world s bid).result = .ok (.arr []) ∧
    (getWorkflow cfg pk now world s wf).result = .ok (.obj []) ∧
    (getBuild cfg pk now world s bid).result = .ok (.obj []) ∧
    (triggerBuild cfg pk now world s wf (some "main") none none).result
        = .ok (.obj []) ∧
    (retryBuild cfg pk now world s bid).result = .ok (.obj []) ∧
    (cancelBuild cfg pk now world s bid).result
        = .error (.unsupportedMethod "PATCH") := by
  have hstatus : ∀ req : HttpRequest,
      ¬ (400 ≤ (world req).status ∧ (world req).status < 600) := by
    intro req hcontra
    have h3 := (hok req).2.1
    omega
  refine ⟨?_, ?_, ?_, ?_, ?_, ?_, ?_, ?_, rfl⟩
  · simp only [listWorkflows]
    rw [makeRequest_get, if_neg (hstatus _)]
    dsimp only
    rw [except_map_ok, Json.getD_of_lacksKey _ _ _ ((hok _).2.2)]
  · simp only [listBuilds]
    rw [makeRequest_get, if_neg (hstatus _)]
    dsimp only
    rw [except_map_ok, Json.getD_of_lacksKey _ _ _ ((hok _).2.2)]
  · simp only [listBuilds]
    rw [makeRequest_get, if_neg (hstatus _)]
    dsimp only
    rw [except_map_ok, Json.getD_of_lacksKey _ _ _ ((hok _).2.2)]
  · simp only [getBuildArtifacts]
    rw [makeRequest_get, if_neg (hstatus _)]
    dsimp only
    rw [except_map_ok, Json.getD_of_lacksKey _ _ _ ((hok _).2.2)]
  · simp only [getWorkflow]
    rw [makeRequest_get, if_neg (hstatus _)]
    dsimp only
    rw [except_map_ok, Json.getD_of_lacksKey _ _ _ ((hok _).2.2)]
  · simp only [getBuild]
    rw [makeRequest_get, if_neg (hstatus _)]
    dsimp only
    rw [except_map_ok, Json.getD_of_lacksKey _ _ _ ((hok _).2.2)]
  · simp only [triggerBuild]
    rw [makeRequest_post, if_neg (hstatus _)]
    dsimp only
    rw [except_map_ok, Json.getD_of_lacksKey _ _ _ ((hok _).2.2)]
  · simp only [retryBuild]
    rw [makeRequest_post, if_neg (hstatus _)]
    dsimp only
    rw [except_map_ok, Json.getD_of_lacksKey _ _ _ ((hok _).2.2)]

/-- C9 witness: the defaults against a concrete server answering 200 with
`{"meta": {}}` on every request. -/
theorem missing_data_defaults_witness :
    (listWorkflows cfg0 "PK" 0 worldNoData ClientState.init).result
        = .ok (.arr []) ∧
    (listBuilds cfg0 "PK" 0 worldNoData ClientState.init (some "wf-1")
        20).result = .ok (.arr []) ∧
    (listBuilds cfg0 "PK" 0 worldNoData ClientState.init none 20).result
        = .ok (.arr []) ∧
    (getBuildArtifacts cfg0 "PK" 0 worldNoData ClientState.init
        "b1").result = .ok (.arr []) ∧
    (getWorkflow cfg0 "PK" 0 worldNoData ClientState.init "wf-1").result
        = .ok (.obj []) ∧
    (getBuild cfg0 "PK" 0 worldNoData ClientState.init "b1").result
        = .ok (.obj []) ∧
    (triggerBuild cfg0 "PK" 0 worldNoData ClientState.init "wf-1"
        (some "main") none none).result = .ok (.obj []) ∧
    (retryBuild cfg0 "PK" 0 worldNoData ClientState.init "b1").result
        = .ok (.obj []) ∧
    (cancelBuild cfg0 "PK" 0 worldNoData ClientState.init "b1").result
        = .error (.unsupportedMethod "PATCH") :=
  missing_data_defaults cfg0 "PK" 0 worldNoData ClientState.init "wf-1" "b1"
    (fun req => ⟨by norm_num [worldNoData], by norm_num [worldNoData],
      [("meta", .obj [])], rfl, rfl⟩)

/-- C10: an empty-string ref value is treated exactly like omitting the
argument, and when several non-empty refs are supplied only the first in
the fixed order branch, tag, commit appears in the request body. -/
theorem triggerBuild_ref_precedence (cfg : Config) (pk : String) (now : Nat)
    (world : HttpWorld) (s : ClientState) (wf : String) :
    (∀ tag commit, triggerBuild cfg pk now world s wf (some "") tag commit
        = triggerBuild cfg pk now world s wf none tag commit) ∧
    (∀ branch commit, triggerBuild cfg pk now world s wf branch (some "")
        commit = triggerBuild cfg pk now world s wf branch none commit) ∧
    (∀ branch tag, triggerBuild cfg pk now world s wf branch tag (some "")
        = triggerBuild cfg pk now world s wf branch tag none) ∧
    (∀ b tag commit, b ≠ "" → ∃ req,
      (triggerBuild cfg pk now world s wf (some b) tag commit).requests
          = [req] ∧
      req.body = some (.obj [("data", .obj
        [ ("type", .str "ciBuildRuns")
        , ("attributes", .obj [("branch", .str b)]) ])])) ∧
    (∀ branch t commit, truthy branch = false → t ≠ "" → ∃ req,
      (triggerBuild cfg pk now world s wf branch (some t) commit).requests
          = [req] ∧
      req.body = some (.obj [("data", .obj
        [ ("type", .str "ciBuildRuns")
        , ("attributes", .obj [("tag", .str t)]) ])])) ∧
    (∀ branch tag c, truthy branch = false → truthy tag = false →
      c ≠ "" → ∃ req,
      (triggerBuild cfg pk now world s wf branch tag (some c)).requests
          = [req] ∧
      req.body = some (.obj [("data", .obj
        [ ("type", .str "ciBuildRuns")
        , ("attributes", .obj [("commit", .str c)]) ])])) := by
  refine ⟨?_, ?_, ?_, ?_, ?_, ?_⟩
  · intro tag commit
    have hb : triggerBuildBody (some "") tag commit
        = triggerBuildBody none tag commit := by
      simp [triggerBuildBody, refAttributes, truthy]
    simp only [triggerBuild]
    rw [hb]
  · intro branch commit
    have hb : triggerBuildBody branch (some "") commit
        = triggerBuildBody branch none commit := by
      simp [triggerBuildBody, refAttributes, truthy]
    simp only [triggerBuild]
    rw [hb]
  · intro branch tag
    have hb : triggerBuildBody branch tag (some "")
        = triggerBuildBody branch tag none := by
      simp [triggerBuildBody, refAttributes, truthy]
    simp only [triggerBuild]
    rw [hb]
  · intro b tag commit hb
    refine ⟨_, triggerBuild_requests cfg pk now world s wf (some b) tag
      commit, ?_⟩
    simp [triggerBuildBody, refAttributes, truthy, hb]
  · intro branch t commit hbr ht
    refine ⟨_, triggerBuild_requests cfg pk now world s wf branch (some t)
      commit, ?_⟩
    have htt : truthy (some t) = true := by simp [truthy, ht]
    simp [triggerBuildBody, refAttributes, hbr, htt]
  · intro branch tag c hbr htg hc
    refine ⟨_, triggerBuild_requests cfg pk now world s wf branch tag
      (some c), ?_⟩
    have hcc : truthy (some c) = true := by simp [truthy, hc]
    simp [triggerBuildBody, refAttributes, hbr, htg, hcc]

/-- C10 witness: an empty-string branch behaves like an omitted branch, and
with both branch `"main"` and tag `"v1"` supplied only `branch` reaches the
body. -/
theorem triggerBuild_ref_precedence_witness :
    (triggerBuild cfg0 "PK" 0 world200 ClientState.init "wf-42" (some "")
        (some "v1") none
      = triggerBuild cfg0 "PK" 0 world200 ClientState.init "wf-42" none
        (some "v1") none) ∧
    ∃ req,
      (triggerBuild cfg0 "PK" 0 world200 ClientState.init "wf-42"
          (some "main") (some "v1") none).requests = [req] ∧
      req.body = some (.obj [("data", .obj
        [ ("type", .str "ciBuildRuns")
        , ("attributes", .obj [("branch", .str "main")]) ])]) :=
  ⟨(triggerBuild_ref_precedence cfg0 "PK" 0 world200 ClientState.init
      "wf-42").1 (some "v1") none,
    (triggerBuild_ref_precedence cfg0 "PK" 0 world200 ClientState.init
      "wf-42").2.2.2.1 "main" (some "v1") none (by decide)⟩

end Cheffy
